import Mathlib

/-!
Verification of the coc-pyright adapter code:
the ruff lint-output adapter (src/features/linters/ruff.ts) and the
Python environment resolver (src/configSettings.ts), shallowly embedded.
External host and OS facilities (filesystem, environment variables,
subprocesses, the coc.nvim API) are modelled as explicit inputs.
-/

namespace Coc

/-- Host editor diagnostic tag (coc.nvim DiagnosticTag). -/
inductive DiagnosticTag where
  | Unnecessary
  | Deprecated
deriving DecidableEq, Repr

/-- Severity values of the ILintMessage record (types.ts). -/
inductive LintMessageSeverity where
  | Hint
  | Error
  | Warning
  | Information
deriving DecidableEq, Repr

/-- Host editor range: Range.create(startLine, startCharacter, endLine, endCharacter). -/
structure Range where
  startLine : Int
  startCharacter : Int
  endLine : Int
  endCharacter : Int
deriving DecidableEq, Repr

/-- Host editor text edit; TextEdit.replace(range, newText). -/
structure TextEdit where
  range : Range
  newText : String
deriving DecidableEq, Repr

/-- Host editor workspace edit: a map from document uri to its text edits,
modelled as an association list. -/
structure WorkspaceEdit where
  changes : List (String × List TextEdit)
deriving DecidableEq, Repr

/-- Modelled from the host library: Uri.parse(filename).toString() of coc.nvim,
an encoding of the file name that the adapter treats as opaque; modelled as the
identity on strings. -/
def uriToString (filename : String) : String := filename

/-- The unified lint message record (ILintMessage of types.ts), restricted to
the fields the ruff adapter produces. -/
structure ILintMessage where
  line : Int
  column : Int
  endLine : Int
  endColumn : Int
  code : String
  message : String
  type : String
  severity : LintMessageSeverity
  tags : List DiagnosticTag
  provider : String
  file : String
  fix : Option WorkspaceEdit
deriving DecidableEq, Repr

end Coc

namespace Ruff

/-- COLUMN_OFF_SET constant of ruff.ts. -/
def COLUMN_OFF_SET : Int := 1

/-- IRuffLocation of ruff.ts. -/
structure RuffLocation where
  row : Int
  column : Int
deriving DecidableEq, Repr

/-- IRuffFix of ruff.ts. -/
structure RuffFix where
  content : String
  location : RuffLocation
  end_location : RuffLocation
deriving DecidableEq, Repr

/-- IRuffLintMessage of ruff.ts (the kind field is unused by the adapter and
omitted); a missing or null fix field is Option.none. -/
structure RuffEntry where
  code : String
  message : String
  fix : Option RuffFix
  location : RuffLocation
  end_location : RuffLocation
  filename : String
deriving DecidableEq, Repr

/-- A JavaScript thrown value as the catch block observes it: whether it is an
instance of Error, and its message when it is. JSON.parse failures throw
SyntaxError, which is an Error. -/
structure JsThrown where
  isError : Bool
  message : String
deriving DecidableEq, Repr

/-- Ruff.fixToWorkspaceEdit of ruff.ts: a falsy fix gives null; otherwise one
TextEdit.replace over Range.create(row - 1, column, endRow - 1, endColumn)
with the fix content, keyed by the parsed uri of the file. -/
def fixToWorkspaceEdit (filename : String) (fix : Option RuffFix) : Option Coc.WorkspaceEdit :=
  match fix with
  | none => none
  | some f =>
    let u := Coc.uriToString filename
    let range : Coc.Range :=
      { startLine := f.location.row - 1
        startCharacter := f.location.column
        endLine := f.end_location.row - 1
        endCharacter := f.end_location.column }
    some { changes := [(u, [{ range := range, newText := f.content }])] }

/-- The per-entry mapping inside Ruff.parseMessages of ruff.ts. -/
def ruffEntryToMessage (linterId : String) (msg : RuffEntry) : Coc.ILintMessage :=
  { line := msg.location.row
    column := msg.location.column - COLUMN_OFF_SET
    endLine := msg.end_location.row
    endColumn := msg.end_location.column
    code := msg.code
    message := msg.message
    type := ""
    severity := Coc.LintMessageSeverity.Warning
    tags := if msg.code == "F401" || msg.code == "F841" then
              [Coc.DiagnosticTag.Unnecessary]
            else []
    provider := linterId
    file := msg.filename
    fix := fixToWorkspaceEdit msg.filename msg.fix }

/-- Ruff.parseMessages of ruff.ts. The evaluation of
JSON.parse(output).map(...) is external JavaScript; its outcome is the input:
Except.ok with the list of well-formed entries, or Except.error with the
thrown value. The result pairs the returned message list with the lines
appended to the output channel: on error, the failure header line, then the
error message if the thrown value is an Error. -/
def parseMessages (linterId : String) (parsed : Except JsThrown (List RuffEntry)) :
    List Coc.ILintMessage × List String :=
  match parsed with
  | Except.ok entries => (entries.map (ruffEntryToMessage linterId), [])
  | Except.error e =>
    ([], ("Linting with " ++ linterId ++ " failed:") ::
         (if e.isError then [e.message] else []))

end Ruff

/-- JavaScript truthiness of an environment variable: undefined and the empty
string are falsy. -/
def jsTruthyStr : Option String → Bool
  | none => false
  | some s => !(s == "")

/-- The string value of an optional string, defaulting to the empty string. -/
def optStr : Option String → String
  | none => ""
  | some s => s

/-- Substring occurrence on character lists: the pattern occurs at some
position of the list. -/
def jsIncludesL (pat : List Char) : List Char → Bool
  | [] => pat.isEmpty
  | a :: rest => pat.isPrefixOf (a :: rest) || jsIncludesL pat rest

/-- JavaScript String.prototype.includes. -/
def strContains (s pat : String) : Bool := jsIncludesL pat.data s.data

/-- Removal of the first occurrence of a pattern from a character list; the
list is unchanged when the pattern does not occur. -/
def jsDropFirstL (pat : List Char) : List Char → List Char
  | [] => []
  | a :: rest =>
    if pat.isPrefixOf (a :: rest) then (a :: rest).drop pat.length
    else a :: jsDropFirstL pat rest

/-- JavaScript String.prototype.replace with a plain (non-global) pattern:
replace the first occurrence of pat by the empty string. -/
def replaceFirstByEmpty (s pat : String) : String :=
  String.mk (jsDropFirstL pat.data s.data)

/-- JavaScript String.prototype.split on a single separator character, on
character lists; the result is never empty. -/
def jsSplitL (c : Char) : List Char → List (List Char)
  | [] => [[]]
  | a :: rest =>
    match jsSplitL c rest with
    | [] => [[]]
    | h :: t => if a == c then [] :: h :: t else (a :: h) :: t

/-- JavaScript String.prototype.split on a single separator character. -/
def jsSplit (c : Char) (s : String) : List String :=
  (jsSplitL c s.data).map String.mk

/-- JavaScript String.prototype.trim: remove leading and trailing whitespace. -/
def jsTrim (s : String) : String :=
  String.mk (((s.data.dropWhile Char.isWhitespace).reverse.dropWhile Char.isWhitespace).reverse)

/-- JavaScript String.prototype.startsWith. -/
def jsStartsWith (s pat : String) : Bool := pat.data.isPrefixOf s.data

/-- The first line of a string: split('\n')[0] in JavaScript, where split of a
string with no newline gives the whole string. -/
def firstLine (s : String) : String := (jsSplit '\n' s).headD ""

namespace PythonSettings

/-- The platform-dependent path separator, path.sep of node. -/
def sepOf (isWin32 : Bool) : String := if isWin32 then "\\" else "/"

/-- A snapshot of the process environment, filesystem and subprocess results
that resolvePythonFromVENV of configSettings.ts consults: the VIRTUAL_ENV,
CONDA_PREFIX and PYENV_VERSION variables, fs.existsSync, fs.readFileSync,
fs.readdirSync of the workspace root, and the trimmed-source stdout of the
pipenv and poetry subprocesses. -/
structure SysEnv where
  isWin32 : Bool
  virtualEnvVar : Option String
  condaEnvVar : Option String
  pyenvVersionVar : Option String
  fileExists : String → Bool
  readFile : String → String
  readdirRoot : List String
  pipenvStdout : String
  poetryStdout : String

/-- path.join(a, b) of node, for components without redundant separators. -/
def pathJoin (env : SysEnv) (a b : String) : String :=
  a ++ sepOf env.isWin32 ++ b

/-- The interpreter location that pythonBinFromPath probes under a directory:
Scripts\python.exe on win32, bin/python elsewhere. -/
def pythonBinPath (env : SysEnv) (p : String) : String :=
  if env.isWin32 then pathJoin env (pathJoin env p "Scripts") "python.exe"
  else pathJoin env (pathJoin env p "bin") "python"

/-- The local helper pythonBinFromPath of resolvePythonFromVENV: the
platform interpreter path under p if it exists, else undefined. -/
def pythonBinFromPath (env : SysEnv) (p : String) : Option String :=
  if env.fileExists (pythonBinPath env p) then some (pythonBinPath env p) else none

/-- The for loop over the lines of the poetry env list output: a marked line
stops the loop with the marker replaced and the line trimmed; otherwise the
running value is the line and the loop continues. The accumulator is the
info variable, initially the empty string. -/
def poetrySelect : List String → String → String
  | [], info => info
  | item :: rest, _ =>
    if strContains item "(Activated)" then jsTrim (replaceFirstByEmpty item "(Activated)")
    else poetrySelect rest item

/-- The final for loop of resolvePythonFromVENV: scan the entries of the
workspace root for a directory holding pyvenv.cfg and return its interpreter
probe result; undefined when none is found. -/
def scanWorkspace (env : SysEnv) (root : String) : List String → Option String
  | [] => none
  | f :: rest =>
    let x := pathJoin env root f
    if env.fileExists (pathJoin env x "pyvenv.cfg") then pythonBinFromPath env x
    else scanWorkspace env root rest

/-- PythonSettings.resolvePythonFromVENV of configSettings.ts. Returns the
probe result together with the possibly updated environment (the PYENV_VERSION
side effect of the .python-version branch). -/
def resolvePythonFromVENV (env : SysEnv) (root : String) : Option String × SysEnv :=
  if jsTruthyStr env.virtualEnvVar &&
      env.fileExists (pathJoin env (optStr env.virtualEnvVar) "pyvenv.cfg") then
    (pythonBinFromPath env (optStr env.virtualEnvVar), env)
  else if jsTruthyStr env.condaEnvVar then
    (pythonBinFromPath env (optStr env.condaEnvVar), env)
  else if env.fileExists (pathJoin env root ".python-version") then
    let env' :=
      if jsTruthyStr env.pyenvVersionVar then env
      else
        let hint := firstLine (jsTrim (env.readFile (pathJoin env root ".python-version")))
        { env with pyenvVersionVar := some hint }
    (none, env')
  else if env.fileExists (pathJoin env root "Pipfile") then
    (some (jsTrim env.pipenvStdout), env)
  else if env.fileExists (pathJoin env root "poetry.lock") then
    let info := poetrySelect (jsSplit '\n' (jsTrim env.poetryStdout)) ""
    if info != "" then (pythonBinFromPath env info, env)
    else (scanWorkspace env root env.readdirRoot, env)
  else
    (scanWorkspace env root env.readdirRoot, env)

/-- The interpreter selection in PythonSettings.update of configSettings.ts:
this.pythonPath = vp ? vp : resolved configured path. -/
def selectPythonPath (vp : Option String) (configured : String) : String :=
  if jsTruthyStr vp then optStr vp else configured

end PythonSettings

/-- The subprocess and search-path facilities that the module-level helpers of
configSettings.ts consult: the home directory for untildify, which.sync with
nothrow (none when the command is not found), and spawnSync stdout for a
command and argument list (none models a spawn whose stdout is unusable and
whose use throws inside the local try block). -/
structure ExecEnv where
  isWin32 : Bool
  home : String
  whichSync : String → Option String
  spawnStdout : String → List String → Option String

/-- The untildify package: replace a leading tilde (alone or followed by a
separator) by the home directory. -/
def untildify (home s : String) : String :=
  if s == "~" then home
  else if jsStartsWith s "~/" || jsStartsWith s "~\\" then home ++ String.mk (s.data.drop 1)
  else s

/-- The path separator as a character. -/
def sepCharOf (isWin32 : Bool) : Char := if isWin32 then '\\' else '/'

/-- Concatenation of path components with a separator character. -/
def joinSep (sep : Char) : List String → String
  | [] => ""
  | [x] => x
  | x :: xs => x ++ String.mk [sep] ++ joinSep sep xs

/-- path.basename of node for paths without redundant separators: the last
nonempty component, or the input itself when there is none. -/
def jsBasename (sep : Char) (s : String) : String :=
  match ((jsSplit sep s).filter (fun x => !(x == ""))).getLast? with
  | some b => b
  | none => s

/-- path.dirname of node for paths without redundant separators: everything
before the last component, a dot when there is no directory part, the root
for a one-component absolute path. -/
def jsDirname (sep : Char) (s : String) : String :=
  let parts := (jsSplit sep s).filter (fun x => !(x == ""))
  if jsStartsWith s (String.mk [sep]) then
    match parts with
    | [] => String.mk [sep]
    | [_] => String.mk [sep]
    | _ => String.mk [sep] ++ joinSep sep parts.dropLast
  else
    match parts with
    | [] => "."
    | [_] => "."
    | _ => joinSep sep parts.dropLast

/-- isValidPythonPath of configSettings.ts: spawn the path with a trivial
print statement and test that stdout starts with 1234; any failure inside
gives false. -/
def isValidPythonPath (c : ExecEnv) (pythonPath : String) : Bool :=
  match c.spawnStdout pythonPath ["-c", "print(1234)"] with
  | some out => jsStartsWith out "1234"
  | none => false

/-- The bare-command test of getPythonExecutable of configSettings.ts: the
path is exactly python, has no path separator, or its basename equals its
dirname. -/
def isBareCommand (c : ExecEnv) (p : String) : Bool :=
  p == "python" || !(strContains p (PythonSettings.sepOf c.isWin32)) ||
    jsBasename (sepCharOf c.isWin32) p == jsDirname (sepCharOf c.isWin32) p

/-- getPythonExecutable of configSettings.ts: untildify the configured path;
when it is a bare command, substitute the which.sync result if found; return
the path whether or not the final validation succeeds. -/
def getPythonExecutable (c : ExecEnv) (pythonPath : String) : String :=
  let p := untildify c.home pythonPath
  let p :=
    if isBareCommand c p then
      match c.whichSync p with
      | some bin => bin
      | none => p
    else p
  if isValidPythonPath c p then p else p

/-- getStdLibs of configSettings.ts: query the interpreter for the first site
package directory and the user site package directory; any failure inside the
try block gives the empty list. -/
def getStdLibs (c : ExecEnv) (pythonPath : String) : List String :=
  match c.spawnStdout pythonPath ["-c", "import site;print(site.getsitepackages()[0])"],
        c.spawnStdout pythonPath ["-c", "import site;print(site.getusersitepackages())"] with
  | some sitePkgs, some userPkgs => [jsTrim sitePkgs, jsTrim userPkgs]
  | _, _ => []

/-- The cached fields _pythonPath and _stdLibs of PythonSettings. -/
structure SettingsState where
  pythonPath : String
  stdLibs : List String
deriving DecidableEq, Repr

/-- The pythonPath setter of PythonSettings of configSettings.ts: a value
equal to the cached path returns at once; otherwise the executable is
resolved and the site package list recomputed. -/
def setPythonPath (c : ExecEnv) (st : SettingsState) (value : String) : SettingsState :=
  if st.pythonPath == value then st
  else
    let p := getPythonExecutable c value
    { pythonPath := p, stdLibs := getStdLibs c p }

/-- A ruff entry with no fix data and a code outside the unused pair. -/
def sampleEntry : Ruff.RuffEntry :=
  { code := "E501", message := "line too long", fix := none,
    location := { row := 2, column := 5 }, end_location := { row := 2, column := 99 },
    filename := "/tmp/a.py" }

/-- The fix record of the ruff.ts documentation example. -/
def sampleFix : Ruff.RuffFix :=
  { content := "", location := { row := 3, column := 0 },
    end_location := { row := 4, column := 0 } }

/-- The ruff entry of the ruff.ts documentation example, carrying fix data. -/
def sampleFixEntry : Ruff.RuffEntry :=
  { code := "F401", message := "numpy imported but unused", fix := some sampleFix,
    location := { row := 3, column := 8 }, end_location := { row := 3, column := 19 },
    filename := "/path/to/bug.py" }

/-- C1: for every valid ruff JSON array, parseMessages returns exactly one
lint message per input entry, in input order, with line = location.row,
column = location.column - 1, endLine = end_location.row and
endColumn = end_location.column unmodified. -/
theorem parseMessages_ok_pointwise (linterId : String) (entries : List Ruff.RuffEntry)
    (i : Nat) (h : i < entries.length) :
    (Ruff.parseMessages linterId (Except.ok entries)).1.length = entries.length ∧
    ∃ h2 : i < (Ruff.parseMessages linterId (Except.ok entries)).1.length,
      ((Ruff.parseMessages linterId (Except.ok entries)).1.get ⟨i, h2⟩).line
          = (entries.get ⟨i, h⟩).location.row ∧
      ((Ruff.parseMessages linterId (Except.ok entries)).1.get ⟨i, h2⟩).column
          = (entries.get ⟨i, h⟩).location.column - 1 ∧
      ((Ruff.parseMessages linterId (Except.ok entries)).1.get ⟨i, h2⟩).endLine
          = (entries.get ⟨i, h⟩).end_location.row ∧
      ((Ruff.parseMessages linterId (Except.ok entries)).1.get ⟨i, h2⟩).endColumn
          = (entries.get ⟨i, h⟩).end_location.column := by
  have hlen : (Ruff.parseMessages linterId (Except.ok entries)).1.length = entries.length := by
    simp [Ruff.parseMessages]
  refine ⟨hlen, hlen ▸ h, ?_, ?_, ?_, ?_⟩ <;>
    simp [Ruff.parseMessages, Ruff.ruffEntryToMessage, Ruff.COLUMN_OFF_SET]

/-- Witness for parseMessages_ok_pointwise at a singleton input. -/
theorem parseMessages_ok_pointwise_witness :
    (Ruff.parseMessages "ruff" (Except.ok [sampleEntry])).1.length = [sampleEntry].length ∧
    ∃ h2 : 0 < (Ruff.parseMessages "ruff" (Except.ok [sampleEntry])).1.length,
      ((Ruff.parseMessages "ruff" (Except.ok [sampleEntry])).1.get ⟨0, h2⟩).line
          = sampleEntry.location.row ∧
      ((Ruff.parseMessages "ruff" (Except.ok [sampleEntry])).1.get ⟨0, h2⟩).column
          = sampleEntry.location.column - 1 ∧
      ((Ruff.parseMessages "ruff" (Except.ok [sampleEntry])).1.get ⟨0, h2⟩).endLine
          = sampleEntry.end_location.row ∧
      ((Ruff.parseMessages "ruff" (Except.ok [sampleEntry])).1.get ⟨0, h2⟩).endColumn
          = sampleEntry.end_location.column :=
  parseMessages_ok_pointwise "ruff" [sampleEntry] 0 (by decide)

/-- C2 counterexample: at a concrete JSON syntax error (an Error instance, as
every JSON.parse failure is), parseMessages appends two log lines, not the
single diagnostic line the claim states. -/
theorem parseMessages_error_two_lines :
    (Ruff.parseMessages "ruff" (Except.error
        { isError := true, message := "Unexpected token o in JSON at position 1" })).1 = [] ∧
    (Ruff.parseMessages "ruff" (Except.error
        { isError := true, message := "Unexpected token o in JSON at position 1" })).2.length = 2 ∧
    ¬ (Ruff.parseMessages "ruff" (Except.error
        { isError := true, message := "Unexpected token o in JSON at position 1" })).2.length = 1 := by
  refine ⟨rfl, rfl, by decide⟩

/-- C2 amended: when parsing or mapping throws, parseMessages returns the
empty list and no exception propagates; it appends two diagnostic log lines
(the failure header and the error message) when the thrown value is an Error,
as JSON.parse syntax errors always are, and one header line otherwise. -/
theorem parseMessages_error_log (linterId : String) (e : Ruff.JsThrown) :
    (Ruff.parseMessages linterId (Except.error e)).1 = [] ∧
    (Ruff.parseMessages linterId (Except.error e)).2.length
        = (if e.isError then 2 else 1) := by
  refine ⟨rfl, ?_⟩
  cases he : e.isError <;> simp [Ruff.parseMessages, he]

/-- C3: an entry carrying fix data yields a single-file workspace edit with
exactly one replacement over the zero-based range (row - 1, column) to
(endRow - 1, endColumn) with the fix content; an entry without fix data
yields no fix. -/
theorem ruff_fix_mapping (linterId : String) (msg : Ruff.RuffEntry) :
    (msg.fix = none → (Ruff.ruffEntryToMessage linterId msg).fix = none) ∧
    (∀ f : Ruff.RuffFix, msg.fix = some f →
      (Ruff.ruffEntryToMessage linterId msg).fix = some
        { changes := [(Coc.uriToString msg.filename,
            [{ range := { startLine := f.location.row - 1,
                          startCharacter := f.location.column,
                          endLine := f.end_location.row - 1,
                          endCharacter := f.end_location.column },
               newText := f.content }])] }) := by
  constructor
  · intro h
    simp [Ruff.ruffEntryToMessage, Ruff.fixToWorkspaceEdit, h]
  · intro f h
    simp [Ruff.ruffEntryToMessage, Ruff.fixToWorkspaceEdit, h]

/-- Witness for ruff_fix_mapping: the documentation example entry yields the
expected one-replacement edit, and the fixless entry yields none. -/
theorem ruff_fix_mapping_witness :
    (Ruff.ruffEntryToMessage "ruff" sampleEntry).fix = none ∧
    (Ruff.ruffEntryToMessage "ruff" sampleFixEntry).fix = some
      { changes := [("/path/to/bug.py",
          [{ range := { startLine := 2, startCharacter := 0,
                        endLine := 3, endCharacter := 0 },
             newText := "" }])] } :=
  ⟨(ruff_fix_mapping "ruff" sampleEntry).1 rfl,
   (ruff_fix_mapping "ruff" sampleFixEntry).2 sampleFix rfl⟩

/-- C9: the returned tags contain the Unnecessary marker exactly when the
entry code is F401 or F841, and are empty for every other code. -/
theorem ruff_tags_unused (linterId : String) (msg : Ruff.RuffEntry) :
    (Coc.DiagnosticTag.Unnecessary ∈ (Ruff.ruffEntryToMessage linterId msg).tags ↔
      (msg.code = "F401" ∨ msg.code = "F841")) ∧
    (msg.code ≠ "F401" → msg.code ≠ "F841" →
      (Ruff.ruffEntryToMessage linterId msg).tags = []) := by
  constructor
  · by_cases h1 : msg.code = "F401" <;> by_cases h2 : msg.code = "F841" <;>
      simp [Ruff.ruffEntryToMessage, h1, h2]
  · intro h1 h2
    simp [Ruff.ruffEntryToMessage, h1, h2]

/-- Witness for ruff_tags_unused at a code outside the unused pair. -/
theorem ruff_tags_unused_witness :
    (Coc.DiagnosticTag.Unnecessary ∈ (Ruff.ruffEntryToMessage "ruff" sampleEntry).tags ↔
      (sampleEntry.code = "F401" ∨ sampleEntry.code = "F841")) ∧
    (Ruff.ruffEntryToMessage "ruff" sampleEntry).tags = [] :=
  ⟨(ruff_tags_unused "ruff" sampleEntry).1,
   (ruff_tags_unused "ruff" sampleEntry).2 (by decide) (by decide)⟩

/-- The poetry line selection as the specification words it: the first output
line containing the marker, with the marker text removed and the line
trimmed; when no line is marked, the last listed line. -/
def poetrySelectSpec (lines : List String) : String :=
  match lines.find? (fun item => strContains item "(Activated)") with
  | some item => jsTrim (replaceFirstByEmpty item "(Activated)")
  | none => lines.getLastD ""

/-- The poetry selection loop agrees with the first-marked-or-last
description for any accumulator value seeding the loop. -/
theorem poetrySelect_find (lines : List String) (info : String) :
    PythonSettings.poetrySelect lines info =
      match lines.find? (fun item => strContains item "(Activated)") with
      | some item => jsTrim (replaceFirstByEmpty item "(Activated)")
      | none => lines.getLastD info := by
  induction lines generalizing info with
  | nil => rfl
  | cons a rest ih =>
    cases h : strContains a "(Activated)" with
    | true =>
      simp [PythonSettings.poetrySelect, h, List.find?_cons_of_pos, List.find?,
            List.getLastD_cons]
    | false =>
      have e1 : PythonSettings.poetrySelect (a :: rest) info
          = PythonSettings.poetrySelect rest a := by
        simp [PythonSettings.poetrySelect, h]
      have e2 : List.find? (fun item => strContains item "(Activated)") (a :: rest)
          = List.find? (fun item => strContains item "(Activated)") rest := by
        simp [List.find?, h]
      rw [e1, ih a, e2]
      cases List.find? (fun item => strContains item "(Activated)") rest with
      | some item => rfl
      | none => exact (List.getLastD_cons _ _ _).symm

/-- C4: with VIRTUAL_ENV set to a directory holding pyvenv.cfg and the
platform interpreter binary present under it, resolution returns that binary
for every state of the remaining probes, in particular when CONDA_PREFIX is
also set. -/
theorem venv_priority (env : PythonSettings.SysEnv) (root v : String)
    (h1 : env.virtualEnvVar = some v) (h2 : v ≠ "")
    (h3 : env.fileExists (PythonSettings.pathJoin env v "pyvenv.cfg") = true)
    (h4 : env.fileExists (PythonSettings.pythonBinPath env v) = true) :
    (PythonSettings.resolvePythonFromVENV env root).1
      = some (PythonSettings.pythonBinPath env v) := by
  simp [PythonSettings.resolvePythonFromVENV, h1, h2, jsTruthyStr, optStr, h3,
        PythonSettings.pythonBinFromPath, h4]

/-- Environment for the virtualenv priority witness: VIRTUAL_ENV and
CONDA_PREFIX both set, with pyvenv.cfg and both interpreter binaries
existing. -/
def envC4 : PythonSettings.SysEnv :=
  { isWin32 := false
    virtualEnvVar := some "/env"
    condaEnvVar := some "/opt/conda"
    pyenvVersionVar := none
    fileExists := fun s =>
      s == "/env/pyvenv.cfg" || s == "/env/bin/python" || s == "/opt/conda/bin/python"
    readFile := fun _ => ""
    readdirRoot := []
    pipenvStdout := ""
    poetryStdout := "" }

/-- Witness for venv_priority. -/
theorem venv_priority_witness :
    (PythonSettings.resolvePythonFromVENV envC4 "/work").1 = some "/env/bin/python" :=
  venv_priority envC4 "/work" "/env" rfl (by decide) (by decide) (by decide)

/-- C10: with VIRTUAL_ENV set to a directory holding pyvenv.cfg but no
interpreter binary under it, resolution returns undefined at once, for every
state of the later probes, and the interpreter selection of update falls to
the configured path. -/
theorem venv_missing_bin_short_circuit (env : PythonSettings.SysEnv)
    (root configured v : String)
    (h1 : env.virtualEnvVar = some v) (h2 : v ≠ "")
    (h3 : env.fileExists (PythonSettings.pathJoin env v "pyvenv.cfg") = true)
    (h4 : env.fileExists (PythonSettings.pythonBinPath env v) = false) :
    (PythonSettings.resolvePythonFromVENV env root).1 = none ∧
    PythonSettings.selectPythonPath
        (PythonSettings.resolvePythonFromVENV env root).1 configured = configured := by
  have hres : (PythonSettings.resolvePythonFromVENV env root).1 = none := by
    simp [PythonSettings.resolvePythonFromVENV, h1, h2, jsTruthyStr, optStr, h3,
          PythonSettings.pythonBinFromPath, h4]
  exact ⟨hres, by simp [PythonSettings.selectPythonPath, hres, jsTruthyStr]⟩

/-- Environment for the short-circuit witness: the virtualenv binary is
missing while the conda probe and the poetry probe would both succeed. -/
def envC10 : PythonSettings.SysEnv :=
  { isWin32 := false
    virtualEnvVar := some "/env"
    condaEnvVar := some "/opt/conda"
    pyenvVersionVar := none
    fileExists := fun s =>
      s == "/env/pyvenv.cfg" || s == "/opt/conda/bin/python" ||
        s == "/work/poetry.lock" || s == "/opt/envs/x/bin/python"
    readFile := fun _ => ""
    readdirRoot := []
    pipenvStdout := ""
    poetryStdout := "/opt/envs/x (Activated)" }

/-- Witness for venv_missing_bin_short_circuit. -/
theorem venv_missing_bin_short_circuit_witness :
    (PythonSettings.resolvePythonFromVENV envC10 "/work").1 = none ∧
    PythonSettings.selectPythonPath
        (PythonSettings.resolvePythonFromVENV envC10 "/work").1 "/usr/bin/python"
      = "/usr/bin/python" :=
  venv_missing_bin_short_circuit envC10 "/work" "/usr/bin/python" "/env"
    rfl (by decide) (by decide) (by decide)

/-- C5: when no earlier probe matches and poetry.lock exists, resolution
selects the first poetry env list line marked (Activated) with the marker
stripped and the line trimmed, or the last listed line when none is marked,
and resolves the selected path to its bin-path interpreter. -/
theorem poetry_probe (env : PythonSettings.SysEnv) (root : String)
    (h1 : (jsTruthyStr env.virtualEnvVar &&
        env.fileExists (PythonSettings.pathJoin env (optStr env.virtualEnvVar) "pyvenv.cfg"))
        = false)
    (h2 : jsTruthyStr env.condaEnvVar = false)
    (h3 : env.fileExists (PythonSettings.pathJoin env root ".python-version") = false)
    (h4 : env.fileExists (PythonSettings.pathJoin env root "Pipfile") = false)
    (h5 : env.fileExists (PythonSettings.pathJoin env root "poetry.lock") = true)
    (h6 : poetrySelectSpec (jsSplit '\n' (jsTrim env.poetryStdout)) ≠ "") :
    (PythonSettings.resolvePythonFromVENV env root).1
      = PythonSettings.pythonBinFromPath env
          (poetrySelectSpec (jsSplit '\n' (jsTrim env.poetryStdout))) := by
  have hsel : PythonSettings.poetrySelect (jsSplit '\n' (jsTrim env.poetryStdout)) ""
      = poetrySelectSpec (jsSplit '\n' (jsTrim env.poetryStdout)) := by
    rw [poetrySelect_find]
    rfl
  simp [PythonSettings.resolvePythonFromVENV, h1, h2, h3, h4, h5, hsel, h6]

/-- Environment for the poetry probe witness: only poetry.lock exists, the
poetry output lists three environments with the second marked. -/
def envC5 : PythonSettings.SysEnv :=
  { isWin32 := false
    virtualEnvVar := none
    condaEnvVar := none
    pyenvVersionVar := none
    fileExists := fun s =>
      s == "/work/poetry.lock" || s == "/venvs/proj-py3.9/bin/python"
    readFile := fun _ => ""
    readdirRoot := []
    pipenvStdout := ""
    poetryStdout := "/venvs/proj-py3.8\n/venvs/proj-py3.9 (Activated)\n/venvs/proj-py3.10\n" }

/-- Witness for poetry_probe: the marked line is chosen, the marker stripped,
and the bin-path interpreter returned. -/
theorem poetry_probe_witness :
    (PythonSettings.resolvePythonFromVENV envC5 "/work").1
      = PythonSettings.pythonBinFromPath envC5
          (poetrySelectSpec (jsSplit '\n' (jsTrim envC5.poetryStdout))) :=
  poetry_probe envC5 "/work" rfl rfl (by decide) (by decide) (by decide) (by decide)

/-- Environment for the pyenv hint claim: .python-version exists with first
line 3.9.1 while PYENV_VERSION is already set to 3.8.0. -/
def envC6 : PythonSettings.SysEnv :=
  { isWin32 := false
    virtualEnvVar := none
    condaEnvVar := none
    pyenvVersionVar := some "3.8.0"
    fileExists := fun s => s == "/work/.python-version"
    readFile := fun s => if s == "/work/.python-version" then "3.9.1\n3.8\n" else ""
    readdirRoot := []
    pipenvStdout := ""
    poetryStdout := "" }

/-- C6 counterexample: when PYENV_VERSION is already set, the .python-version
probe leaves it unchanged instead of recording the first line of the file, so
the claim that resolution sets the variable to the first line fails here. -/
theorem python_version_probe_preset_cex :
    (PythonSettings.resolvePythonFromVENV envC6 "/work").2.pyenvVersionVar = some "3.8.0" ∧
    firstLine (jsTrim (envC6.readFile "/work/.python-version")) = "3.9.1" ∧
    ¬ (PythonSettings.resolvePythonFromVENV envC6 "/work").2.pyenvVersionVar
        = some (firstLine (jsTrim (envC6.readFile "/work/.python-version"))) := by
  refine ⟨by decide, by decide, by decide⟩

/-- C6 amended: when no earlier probe matches and .python-version exists, the
probe returns no interpreter path and resolution falls through to the
configured path; PYENV_VERSION is set to the first line of the file only when
it is not already set to a truthy value, and is preserved otherwise. -/
theorem python_version_probe (env : PythonSettings.SysEnv) (root configured : String)
    (h1 : (jsTruthyStr env.virtualEnvVar &&
        env.fileExists (PythonSettings.pathJoin env (optStr env.virtualEnvVar) "pyvenv.cfg"))
        = false)
    (h2 : jsTruthyStr env.condaEnvVar = false)
    (h3 : env.fileExists (PythonSettings.pathJoin env root ".python-version") = true) :
    (PythonSettings.resolvePythonFromVENV env root).1 = none ∧
    PythonSettings.selectPythonPath
        (PythonSettings.resolvePythonFromVENV env root).1 configured = configured ∧
    (PythonSettings.resolvePythonFromVENV env root).2.pyenvVersionVar
      = (if jsTruthyStr env.pyenvVersionVar then env.pyenvVersionVar
         else some (firstLine
            (jsTrim (env.readFile (PythonSettings.pathJoin env root ".python-version"))))) := by
  have hres : PythonSettings.resolvePythonFromVENV env root
      = (none,
         if jsTruthyStr env.pyenvVersionVar then env
         else { env with pyenvVersionVar := some (firstLine (jsTrim (env.readFile
                  (PythonSettings.pathJoin env root ".python-version")))) }) := by
    simp [PythonSettings.resolvePythonFromVENV, h1, h2, h3]
  refine ⟨by rw [hres], ?_, ?_⟩
  · rw [hres]
    simp [PythonSettings.selectPythonPath, jsTruthyStr]
  · rw [hres]
    cases hp : jsTruthyStr env.pyenvVersionVar <;> simp [hp]

/-- Witness for python_version_probe at the concrete preset environment. -/
theorem python_version_probe_witness :
    (PythonSettings.resolvePythonFromVENV envC6 "/work").1 = none ∧
    PythonSettings.selectPythonPath
        (PythonSettings.resolvePythonFromVENV envC6 "/work").1 "/usr/bin/python"
      = "/usr/bin/python" ∧
    (PythonSettings.resolvePythonFromVENV envC6 "/work").2.pyenvVersionVar
      = (if jsTruthyStr envC6.pyenvVersionVar then envC6.pyenvVersionVar
         else some (firstLine
            (jsTrim (envC6.readFile (PythonSettings.pathJoin envC6 "/work" ".python-version"))))) :=
  python_version_probe envC6 "/work" "/usr/bin/python" (by decide) (by decide) (by decide)

/-- C7: a configured bare command found on the search path is substituted by
the search-path result, and getPythonExecutable returns that path for every
behavior of the validation subprocess, so validation failure is non-fatal. -/
theorem getPythonExecutable_bare (c : ExecEnv) (pythonPath bin : String)
    (hb : isBareCommand c (untildify c.home pythonPath) = true)
    (hw : c.whichSync (untildify c.home pythonPath) = some bin) :
    getPythonExecutable c pythonPath = bin := by
  simp [getPythonExecutable, hb, hw]

/-- Execution environment for the bare-command witness: which resolves the
name python to /usr/bin/python3 and validation would succeed. -/
def execEnvC7 : ExecEnv :=
  { isWin32 := false
    home := "/home/u"
    whichSync := fun s => if s == "python" then some "/usr/bin/python3" else none
    spawnStdout := fun _ _ => some "1234\n" }

/-- Execution environment where every subprocess fails, so validation fails. -/
def execEnvC7bad : ExecEnv :=
  { isWin32 := false
    home := "/home/u"
    whichSync := fun s => if s == "python" then some "/usr/bin/python3" else none
    spawnStdout := fun _ _ => none }

/-- Witness for getPythonExecutable_bare: the resolved path is returned both
when validation succeeds and when it fails. -/
theorem getPythonExecutable_bare_witness :
    getPythonExecutable execEnvC7 "python" = "/usr/bin/python3" ∧
    getPythonExecutable execEnvC7bad "python" = "/usr/bin/python3" :=
  ⟨getPythonExecutable_bare execEnvC7 "python" "/usr/bin/python3" (by decide) (by decide),
   getPythonExecutable_bare execEnvC7bad "python" "/usr/bin/python3" (by decide) (by decide)⟩

/-- C8: setting pythonPath to the value already cached is a no-op: the cached
path and the cached site-package list are unchanged, and the result does not
depend on the lookup and subprocess environment, so no executable lookup or
site-package discovery affects it. -/
theorem setPythonPath_noop (c c' : ExecEnv) (st : SettingsState) (value : String)
    (h : st.pythonPath = value) :
    setPythonPath c st value = st ∧
    setPythonPath c st value = setPythonPath c' st value := by
  constructor <;> simp [setPythonPath, h]

/-- Settings state for the no-op witness. -/
def stC8 : SettingsState :=
  { pythonPath := "/usr/bin/python3"
    stdLibs := ["/usr/lib/python3/site-packages"] }

/-- Execution environment whose lookups all fail. -/
def execEnvC8 : ExecEnv :=
  { isWin32 := false
    home := "/root"
    whichSync := fun _ => none
    spawnStdout := fun _ _ => none }

/-- Execution environment whose lookups all succeed. -/
def execEnvC8b : ExecEnv :=
  { isWin32 := false
    home := "/root"
    whichSync := fun _ => some "/usr/bin/python3"
    spawnStdout := fun _ _ => some "1234" }

/-- Witness for setPythonPath_noop: assigning the cached value changes
nothing, under two extreme subprocess environments alike. -/
theorem setPythonPath_noop_witness :
    setPythonPath execEnvC8 stC8 "/usr/bin/python3" = stC8 ∧
    setPythonPath execEnvC8 stC8 "/usr/bin/python3"
      = setPythonPath execEnvC8b stC8 "/usr/bin/python3" :=
  setPythonPath_noop execEnvC8 execEnvC8b stC8 "/usr/bin/python3" rfl
